import Mathlib

/-!
Shallow embedding of the HealthPulse analytics engine
(`src/backend/app` services and ML models) over exact rational
arithmetic, together with theorems settling the frozen claims about it.

Python `float` values are modelled as `ℚ`; Python's `round(x)` /
`round(x, n)` (banker's rounding, half to even) is modelled by
`pyRoundInt` / `round1` / `round2` below.
-/

namespace HealthPulse

/-- Python `round(x)`: round half to even (banker's rounding) to an integer. -/
def pyRoundInt (q : ℚ) : ℤ :=
  let f := ⌊q⌋
  let r := q - (f : ℚ)
  if r < 1/2 then f
  else if r > 1/2 then f + 1
  else if f % 2 = 0 then f else f + 1

/-- Python `round(x, 1)`. -/
def round1 (q : ℚ) : ℚ :=
  (pyRoundInt (q * 10) : ℚ) / 10

/-- Python `round(x, 2)`. -/
def round2 (q : ℚ) : ℚ :=
  (pyRoundInt (q * 100) : ℚ) / 100

/-- Python `str.lower()`, as used on the ASCII gender/category strings of the
repository: lowercase every character. -/
def strLower (s : String) : String :=
  ⟨s.data.map Char.toLower⟩

namespace NutritionCalculator

/-- Embeds `NutritionCalculator.calculate_bmr`
(`src/backend/app/services/nutrition_calculator.py`, lines 83-112):
Mifflin-St Jeor, with `gender.lower() == "male"` selecting the `+5`
variant and every other gender the `-161` variant. -/
def calculate_bmr (weight_kg height_cm : ℚ) (age : ℤ) (gender : String) : ℚ :=
  let base_bmr := 10 * weight_kg + (625/100) * height_cm - 5 * (age : ℚ)
  if strLower gender = "male" then base_bmr + 5
  else base_bmr - 161

/-- Embeds the `MacroDistribution` dataclass. -/
structure MacroDistribution where
  protein_pct : ℚ
  carbs_pct : ℚ
  fat_pct : ℚ
  deriving DecidableEq, Repr

/-- Embeds the `MACRO_DISTRIBUTIONS` dict (lines 33-38) as a lookup from
goal name to distribution; keys absent from the dict map to `none`. -/
def MACRO_DISTRIBUTIONS (goal : String) : Option MacroDistribution :=
  if goal = "lose_weight" then some ⟨40/100, 30/100, 30/100⟩
  else if goal = "build_muscle" then some ⟨30/100, 45/100, 25/100⟩
  else if goal = "maintain" then some ⟨25/100, 45/100, 30/100⟩
  else if goal = "general_health" then some ⟨20/100, 50/100, 30/100⟩
  else none

/-- Embeds `NutritionCalculator.calculate_macro_grams` (lines 140-162):
calories per macro from the percentage split, converted to grams via the
`CALORIES_PER_GRAM` table (protein 4, carbs 4, fat 9). -/
def calculate_macro_grams (calorie_target : ℚ) (distribution : MacroDistribution) :
    ℚ × ℚ × ℚ :=
  let protein_calories := calorie_target * distribution.protein_pct
  let carbs_calories := calorie_target * distribution.carbs_pct
  let fat_calories := calorie_target * distribution.fat_pct
  (protein_calories / 4, carbs_calories / 4, fat_calories / 9)

/-- Embeds `NutritionCalculator._calculate_adherence_score` (lines 328-362):
piecewise-linear decay in the deviation `|1 - consumed/target|`, with
`target <= 0` short-circuiting to the neutral 50. -/
def calculate_adherence_score (consumed target : ℚ) : ℚ :=
  if target ≤ 0 then 50
  else
    let ratio := consumed / target
    let deviation := |1 - ratio|
    if deviation ≤ 10/100 then 100 - deviation * 100
    else if deviation ≤ 20/100 then 80 - (deviation - 10/100) * 100
    else if deviation ≤ 50/100 then 60 - (deviation - 20/100) * 100
    else max 0 (30 - (deviation - 50/100) * 60)

end NutritionCalculator

/-- Python `f"{x:.1f}"` rendering of a number, used inside message strings. -/
def fmtQ1 (q : ℚ) : String :=
  let n := pyRoundInt (q * 10)
  (if n < 0 then "-" else "") ++ toString (n.natAbs / 10) ++ "." ++ toString (n.natAbs % 10)

namespace FitnessPredictor

/-- One entry of a recovery `factors` dict
(`src/backend/app/ml/ml_models.py`): the dict key is kept as `name` so the
insertion-ordered dict becomes a list of entries; the optional `baseline`
key appears only for the hrv / resting_hr factors. -/
structure FactorEntry where
  name : String
  value : ℚ
  score : ℚ
  impact : String
  baseline : Option ℚ := none
  deriving Repr, DecidableEq

/-- Embeds the `RECOVERY_WEIGHTS` class dict (lines 47-54). -/
structure RecoveryWeights where
  sleep_hours : ℚ
  sleep_quality : ℚ
  hrv : ℚ
  resting_hr : ℚ
  training_load_7d : ℚ
  stress : ℚ

def RECOVERY_WEIGHTS : RecoveryWeights :=
  ⟨25/100, 20/100, 20/100, 15/100, 10/100, 10/100⟩

/-- `sum(self.RECOVERY_WEIGHTS.values())`. -/
def RECOVERY_WEIGHTS_values_sum : ℚ :=
  RECOVERY_WEIGHTS.sleep_hours + RECOVERY_WEIGHTS.sleep_quality + RECOVERY_WEIGHTS.hrv
    + RECOVERY_WEIGHTS.resting_hr + RECOVERY_WEIGHTS.training_load_7d
    + RECOVERY_WEIGHTS.stress

/-- The running state of `calculate_recovery_score`'s factor loop:
the `factors` dict plus the `weighted_score` and `weights_used` sums. -/
structure RecoveryAccum where
  factors : List FactorEntry
  weighted_score : ℚ
  weights_used : ℚ

/-- The sleep-hours block of `calculate_recovery_score` (lines 108-123). -/
def recoveryStepSleepHours (sleep_hours : ℚ) (acc : RecoveryAccum) : RecoveryAccum :=
  if 0 < sleep_hours then
    let sleep_hrs_score : ℚ :=
      if 7 ≤ sleep_hours ∧ sleep_hours ≤ 9 then 100
      else if sleep_hours < 7 then max 0 ((sleep_hours / 7) * 100)
      else max 70 (100 - (sleep_hours - 9) * 10)
    ⟨acc.factors ++ [⟨"sleep_hours", sleep_hours, sleep_hrs_score,
        if 70 < sleep_hrs_score then "positive" else "negative", none⟩],
      acc.weighted_score + sleep_hrs_score * RECOVERY_WEIGHTS.sleep_hours,
      acc.weights_used + RECOVERY_WEIGHTS.sleep_hours⟩
  else acc

/-- The sleep-quality block (lines 125-133). -/
def recoveryStepSleepQuality (sleep_quality : ℚ) (acc : RecoveryAccum) : RecoveryAccum :=
  if 0 < sleep_quality then
    ⟨acc.factors ++ [⟨"sleep_quality", sleep_quality, sleep_quality,
        if 70 < sleep_quality then "positive" else "negative", none⟩],
      acc.weighted_score + sleep_quality * RECOVERY_WEIGHTS.sleep_quality,
      acc.weights_used + RECOVERY_WEIGHTS.sleep_quality⟩
  else acc

/-- The HRV block (lines 135-146), guarded by `hrv is not None and hrv > 0`. -/
def recoveryStepHrv (hrv : Option ℚ) (hrv_baseline : ℚ) (acc : RecoveryAccum) :
    RecoveryAccum :=
  match hrv with
  | none => acc
  | some v =>
    if 0 < v then
      let hrv_score := min 100 (max 0 ((v / hrv_baseline) * 80))
      ⟨acc.factors ++ [⟨"hrv", v, hrv_score,
          if hrv_baseline ≤ v then "positive" else "negative", some hrv_baseline⟩],
        acc.weighted_score + hrv_score * RECOVERY_WEIGHTS.hrv,
        acc.weights_used + RECOVERY_WEIGHTS.hrv⟩
    else acc

/-- The resting-HR block (lines 148-159). -/
def recoveryStepRestingHr (resting_hr : Option ℚ) (rhr_baseline : ℚ)
    (acc : RecoveryAccum) : RecoveryAccum :=
  match resting_hr with
  | none => acc
  | some v =>
    if 0 < v then
      let rhr_score := min 100 (max 0 ((rhr_baseline / v) * 80))
      ⟨acc.factors ++ [⟨"resting_hr", v, rhr_score,
          if v ≤ rhr_baseline then "positive" else "negative", some rhr_baseline⟩],
        acc.weighted_score + rhr_score * RECOVERY_WEIGHTS.resting_hr,
        acc.weights_used + RECOVERY_WEIGHTS.resting_hr⟩
    else acc

/-- The training-load block (lines 161-177), guarded by `training_load_7d >= 0`. -/
def recoveryStepTrainingLoad (training_load_7d : ℚ) (acc : RecoveryAccum) :
    RecoveryAccum :=
  if 0 ≤ training_load_7d then
    let load_score : ℚ :=
      if 200 ≤ training_load_7d ∧ training_load_7d ≤ 500 then 90
      else if training_load_7d < 200 then 70 + (training_load_7d / 200) * 20
      else max 30 (90 - (training_load_7d - 500) * (12/100))
    ⟨acc.factors ++ [⟨"training_load", training_load_7d, load_score,
        if 200 ≤ training_load_7d ∧ training_load_7d ≤ 500 then "positive"
        else "negative", none⟩],
      acc.weighted_score + load_score * RECOVERY_WEIGHTS.training_load_7d,
      acc.weights_used + RECOVERY_WEIGHTS.training_load_7d⟩
  else acc

/-- The stress block (lines 179-187); it has no guard. -/
def recoveryStepStress (stress_level : ℚ) (acc : RecoveryAccum) : RecoveryAccum :=
  let stress_score := max 0 ((10 - stress_level) / 10 * 100)
  ⟨acc.factors ++ [⟨"stress", stress_level, stress_score,
      if stress_level ≤ 4 then "positive" else "negative", none⟩],
    acc.weighted_score + stress_score * RECOVERY_WEIGHTS.stress,
    acc.weights_used + RECOVERY_WEIGHTS.stress⟩

/-- Embeds lines 104-187 of `FitnessPredictor.calculate_recovery_score`:
the sequential accumulation of present factors into the factors dict,
`weighted_score` and `weights_used`, starting from the empty state. -/
def calculate_recovery_accum (sleep_hours sleep_quality : ℚ)
    (hrv resting_hr : Option ℚ) (training_load_7d stress_level : ℚ)
    (hrv_baseline rhr_baseline : ℚ) : RecoveryAccum :=
  recoveryStepStress stress_level
    (recoveryStepTrainingLoad training_load_7d
      (recoveryStepRestingHr resting_hr rhr_baseline
        (recoveryStepHrv hrv hrv_baseline
          (recoveryStepSleepQuality sleep_quality
            (recoveryStepSleepHours sleep_hours ⟨[], 0, 0⟩)))))

/-- `"name" in factors` / `factors["name"]` on the factor list. -/
def findFactor (factors : List FactorEntry) (n : String) : Option FactorEntry :=
  factors.find? (fun f => f.name = n)

/-- Embeds `FitnessPredictor._generate_recovery_recommendations`
(lines 217-258). -/
def generate_recovery_recommendations (factors : List FactorEntry) (score : ℚ) :
    List String :=
  let r1 : List String :=
    match findFactor factors "sleep_hours" with
    | some f =>
      if f.score < 70 then
        ["Aim for 7-9 hours of sleep. You got " ++ fmtQ1 f.value ++ " hours."]
      else []
    | none => []
  let r2 : List String :=
    match findFactor factors "sleep_quality" with
    | some f =>
      if f.score < 70 then
        ["Improve sleep quality: avoid screens 1hr before bed, keep room cool and dark."]
      else []
    | none => []
  let r3 : List String :=
    match findFactor factors "hrv" with
    | some f =>
      if f.impact = "negative" then
        ["Your HRV is below baseline. Consider light activity or rest today."]
      else []
    | none => []
  let r4 : List String :=
    match findFactor factors "resting_hr" with
    | some f =>
      if f.impact = "negative" then
        ["Elevated resting HR may indicate incomplete recovery or stress."]
      else []
    | none => []
  let r5 : List String :=
    match findFactor factors "training_load" with
    | some f =>
      if 500 < f.value then
        ["High training load this week. Consider a recovery day."]
      else []
    | none => []
  let r6 : List String :=
    match findFactor factors "stress" with
    | some f =>
      if 6 < f.value then
        ["High stress levels detected. Try meditation or breathing exercises."]
      else []
    | none => []
  let recommendations := r1 ++ r2 ++ r3 ++ r4 ++ r5 ++ r6
  if 80 ≤ score ∧ recommendations = [] then
    recommendations ++ ["Great recovery! You're ready for a challenging workout."]
  else if recommendations = [] then
    recommendations ++ ["Maintain consistent sleep and recovery habits."]
  else recommendations

/-- Embeds the `RecoveryResult` TypedDict. -/
structure RecoveryResult where
  score : ℚ
  confidence : ℚ
  status : String
  contributing_factors : List FactorEntry
  recommendations : List String
  deriving Repr

/-- Embeds `FitnessPredictor.calculate_recovery_score` (lines 78-215):
factor accumulation, `weighted_score / weights_used` (neutral 50 when no
weights), confidence `min(1, weights_used / sum(weights))`, status
thresholds at 80 and 50, and the generated recommendations. -/
def calculate_recovery_score (sleep_hours sleep_quality : ℚ)
    (hrv resting_hr : Option ℚ) (training_load_7d stress_level : ℚ)
    (hrv_baseline rhr_baseline : ℚ) : RecoveryResult :=
  let acc := calculate_recovery_accum sleep_hours sleep_quality hrv resting_hr
    training_load_7d stress_level hrv_baseline rhr_baseline
  let score := if 0 < acc.weights_used then acc.weighted_score / acc.weights_used else 50
  let confidence := min 1 (acc.weights_used / RECOVERY_WEIGHTS_values_sum)
  let status :=
    if 80 ≤ score then "recovered" else if 50 ≤ score then "moderate" else "fatigued"
  ⟨round1 score, round2 confidence, status, acc.factors,
    generate_recovery_recommendations acc.factors score⟩

/-- One value of the readiness `factors` dict: `{value, score, impact}`. -/
structure ScoredFactor where
  value : ℚ
  score : ℚ
  impact : String
  deriving Repr, DecidableEq

/-- The readiness `factors` dict has the five fixed keys
`recovery`, `sleep`, `rest_days`, `energy`, `soreness`. -/
structure ReadinessFactors where
  recovery : ScoredFactor
  sleep : ScoredFactor
  rest_days : ScoredFactor
  energy : ScoredFactor
  soreness : ScoredFactor
  deriving Repr

/-- Embeds the `READINESS_WEIGHTS` class dict (lines 57-63). -/
structure ReadinessWeights where
  recovery_score : ℚ
  sleep_quality : ℚ
  days_since_hard_workout : ℚ
  energy_level : ℚ
  muscle_soreness : ℚ

def READINESS_WEIGHTS : ReadinessWeights :=
  ⟨35/100, 20/100, 15/100, 15/100, 15/100⟩

/-- Embeds the `ReadinessResult` TypedDict. -/
structure ReadinessResult where
  score : ℚ
  confidence : ℚ
  recommended_intensity : String
  factors : ReadinessFactors
  suggested_workout_types : List String
  deriving Repr

/-- Embeds `FitnessPredictor.calculate_readiness_score` (lines 260-357):
weighted sum of five always-present factors, intensity thresholds at
80 / 60 / 40, and the fixed 0.85 confidence. -/
def calculate_readiness_score (recovery_score sleep_quality : ℚ)
    (days_since_hard_workout : ℤ) (energy_level muscle_soreness : ℚ) :
    ReadinessResult :=
  let recovery : ScoredFactor := ⟨recovery_score, recovery_score,
    if 70 < recovery_score then "positive" else "negative"⟩
  let sleep : ScoredFactor := ⟨sleep_quality, sleep_quality,
    if 70 < sleep_quality then "positive" else "negative"⟩
  let rest_score : ℚ :=
    if days_since_hard_workout = 0 then 40
    else if 1 ≤ days_since_hard_workout ∧ days_since_hard_workout ≤ 3 then 90
    else if 5 < days_since_hard_workout then 70
    else 80
  let rest_days : ScoredFactor := ⟨(days_since_hard_workout : ℚ), rest_score,
    if 1 ≤ days_since_hard_workout ∧ days_since_hard_workout ≤ 3 then "positive"
    else "neutral"⟩
  let energy_score := (energy_level / 10) * 100
  let energy : ScoredFactor := ⟨energy_level, energy_score,
    if 7 ≤ energy_level then "positive" else "negative"⟩
  let soreness_score := ((10 - muscle_soreness) / 10) * 100
  let soreness : ScoredFactor := ⟨muscle_soreness, soreness_score,
    if muscle_soreness ≤ 4 then "positive" else "negative"⟩
  let score :=
    recovery.score * READINESS_WEIGHTS.recovery_score
    + sleep.score * READINESS_WEIGHTS.sleep_quality
    + rest_days.score * READINESS_WEIGHTS.days_since_hard_workout
    + energy.score * READINESS_WEIGHTS.energy_level
    + soreness.score * READINESS_WEIGHTS.muscle_soreness
  let intensity_and_workouts : String × List String :=
    if 80 ≤ score then
      ("hard", ["HIIT", "Strength Training", "Long Run", "Competition"])
    else if 60 ≤ score then
      ("moderate", ["Tempo Run", "Circuit Training", "Swimming", "Cycling"])
    else if 40 ≤ score then
      ("light", ["Yoga", "Walking", "Light Stretching", "Easy Swim"])
    else
      ("rest", ["Rest", "Meditation", "Gentle Stretching", "Massage"])
  ⟨round1 score, 85/100, intensity_and_workouts.1,
    ⟨recovery, sleep, rest_days, energy, soreness⟩, intensity_and_workouts.2⟩

end FitnessPredictor

namespace WellnessCalculator

/-- Embeds the `DailyMetrics` dataclass
(`src/backend/app/services/wellness_calculator.py`, lines 8-22);
every field is optional. -/
structure DailyMetrics where
  steps : Option ℤ := none
  active_calories : Option ℤ := none
  sleep_duration_hours : Option ℚ := none
  sleep_quality : Option ℚ := none
  resting_hr : Option ℤ := none
  hrv : Option ℚ := none
  energy_level : Option ℤ := none
  mood : Option ℤ := none
  stress : Option ℤ := none
  soreness : Option ℤ := none
  nutrition_score : Option ℚ := none
  training_load_7d : Option ℚ := none

/-- The goal values the calculator reads (`DEFAULT_GOALS` keys, lines 42-48);
`WellnessCalculator.__init__` merges user goals over these defaults, so the
component functions are parametrised by the merged goals. -/
structure Goals where
  steps : ℚ
  active_calories : ℚ
  sleep_hours : ℚ
  resting_hr_optimal : ℚ
  hrv_baseline : ℚ

def DEFAULT_GOALS : Goals := ⟨10000, 500, 8, 60, 50⟩

/-- Embeds the `WEIGHTS` class dict (lines 50-58). -/
structure WellnessWeights where
  activity : ℚ
  sleep : ℚ
  recovery : ℚ
  mental : ℚ
  nutrition : ℚ
  training_load : ℚ

def WEIGHTS : WellnessWeights :=
  ⟨20/100, 20/100, 15/100, 15/100, 20/100, 10/100⟩

/-- Embeds `_calculate_activity_score` (lines 98-110). -/
def calculate_activity_score (g : Goals) (m : DailyMetrics) : ℚ :=
  let scores : List ℚ :=
    (match m.steps with
      | some s => [min 100 ((s : ℚ) / g.steps * 100)]
      | none => [])
    ++ (match m.active_calories with
      | some c => [min 100 ((c : ℚ) / g.active_calories * 100)]
      | none => [])
  if scores = [] then 50 else scores.sum / scores.length

/-- Embeds `_calculate_sleep_score` (lines 112-130). -/
def calculate_sleep_score (m : DailyMetrics) : ℚ :=
  let scores : List ℚ :=
    (match m.sleep_duration_hours with
      | some d =>
        [if 7 ≤ d ∧ d ≤ 9 then 100
         else if d < 7 then max 0 (100 - (7 - d) * 20)
         else max 0 (100 - (d - 9) * 10)]
      | none => [])
    ++ (match m.sleep_quality with
      | some q => [q]
      | none => [])
  if scores = [] then 50 else scores.sum / scores.length

/-- Embeds `_calculate_recovery_score` (lines 132-156). -/
def calculate_recovery_score (g : Goals) (m : DailyMetrics) : ℚ :=
  let scores : List ℚ :=
    (match m.hrv with
      | some v => [min 100 (v / g.hrv_baseline * 70 + 30)]
      | none => [])
    ++ (match m.resting_hr with
      | some rhr =>
        [if (rhr : ℚ) ≤ g.resting_hr_optimal then 100
         else max 0 (100 - ((rhr : ℚ) - g.resting_hr_optimal) * 2)]
      | none => [])
    ++ (match m.soreness with
      | some s => [((10 : ℚ) - s) * 10]
      | none => [])
  if scores = [] then 50 else scores.sum / scores.length

/-- Embeds `_calculate_mental_score` (lines 158-172). -/
def calculate_mental_score (m : DailyMetrics) : ℚ :=
  let scores : List ℚ :=
    (match m.energy_level with
      | some e => [(e : ℚ) * 10]
      | none => [])
    ++ (match m.mood with
      | some mo => [(mo : ℚ) * 10]
      | none => [])
    ++ (match m.stress with
      | some st => [((10 : ℚ) - st) * 10]
      | none => [])
  if scores = [] then 50 else scores.sum / scores.length

/-- Embeds `_calculate_nutrition_score` (lines 174-186): pass-through of the
pre-computed nutrition score, neutral 70 if absent. -/
def calculate_nutrition_score (m : DailyMetrics) : ℚ :=
  match m.nutrition_score with
  | some n => n
  | none => 70

/-- Embeds `_calculate_training_load_score` (lines 188-213). -/
def calculate_training_load_score (m : DailyMetrics) : ℚ :=
  match m.training_load_7d with
  | none => 70
  | some load =>
    if 300 ≤ load ∧ load ≤ 800 then 100
    else if load < 300 then max 40 (load / 300 * 100)
    else max 30 (100 - (load - 800) / 800 * 70)

/-- Embeds `_calculate_completeness` (lines 215-232): fraction of the twelve
metric fields that are present. -/
def calculate_completeness (m : DailyMetrics) : ℚ :=
  let present : List Bool :=
    [m.steps.isSome, m.active_calories.isSome, m.sleep_duration_hours.isSome,
     m.sleep_quality.isSome, m.resting_hr.isSome, m.hrv.isSome,
     m.energy_level.isSome, m.mood.isSome, m.stress.isSome, m.soreness.isSome,
     m.nutrition_score.isSome, m.training_load_7d.isSome]
  ((present.count true : ℤ) : ℚ) / 12

/-- The weighted overall sum of `calculate` (lines 78-85), as a function of
the six component scores. -/
def overall_from_components (activity sleep recovery mental nutrition
    training_load : ℚ) : ℚ :=
  activity * WEIGHTS.activity + sleep * WEIGHTS.sleep + recovery * WEIGHTS.recovery
    + mental * WEIGHTS.mental + nutrition * WEIGHTS.nutrition
    + training_load * WEIGHTS.training_load

/-- Embeds the `WellnessBreakdown` dataclass (lines 25-35). -/
structure WellnessBreakdown where
  overall_score : ℚ
  activity_score : ℚ
  sleep_score : ℚ
  recovery_score : ℚ
  mental_score : ℚ
  nutrition_score : ℚ
  training_load_score : ℚ
  data_completeness : ℚ
  deriving Repr

/-- Embeds `WellnessCalculator.calculate` (lines 64-96). -/
def calculate (g : Goals) (m : DailyMetrics) : WellnessBreakdown :=
  let activity_score := calculate_activity_score g m
  let sleep_score := calculate_sleep_score m
  let recovery_score := calculate_recovery_score g m
  let mental_score := calculate_mental_score m
  let nutrition_score := calculate_nutrition_score m
  let training_load_score := calculate_training_load_score m
  let completeness := calculate_completeness m
  let overall := overall_from_components activity_score sleep_score recovery_score
    mental_score nutrition_score training_load_score
  ⟨round1 overall, round1 activity_score, round1 sleep_score, round1 recovery_score,
    round1 mental_score, round1 nutrition_score, round1 training_load_score,
    round2 completeness⟩

end WellnessCalculator

/-- Python `max(iterable, default=0)` on a list of rationals: the maximum of a
nonempty list, 0 on the empty list. -/
def listMaxD0 : List ℚ → ℚ
  | [] => 0
  | x :: xs => xs.foldl max x

/-- Rendering of a Python float inside an f-string, for values whose decimal
expansion has at most one fractional digit (the increments and weights used in
the reason strings); other values fall back to the raw rational rendering. -/
def floatStr (q : ℚ) : String :=
  if (q * 10).den = 1 then
    let n := (q * 10).num
    (if n < 0 then "-" else "") ++ toString (n.natAbs / 10) ++ "."
      ++ toString (n.natAbs % 10)
  else toString q

namespace ProgressionService

/-- One element of an exercise's `sets` list
(`src/backend/app/services/progression_service.py`); missing `weight`/`reps`
keys default to 0 via `dict.get`, so they are total fields, while `rpe` is
genuinely optional. -/
structure SetEntry where
  weight : ℚ
  reps : ℤ
  rpe : Option ℚ
  deriving Repr, DecidableEq

/-- One exercise record inside a workout session. -/
structure ExerciseEntry where
  name : String
  sets : List SetEntry
  deriving Repr, DecidableEq

/-- One workout session row (`exercises` JSON column). -/
structure Session where
  exercises : List ExerciseEntry
  deriving Repr, DecidableEq

/-- Embeds the session-extraction loop of `_compute_suggestion`
(lines 79-88): from each session take the first exercise matching the name,
and keep its set list when nonempty. -/
def extract_exercise_sessions (name : String) (sessions : List Session) :
    List (List SetEntry) :=
  sessions.filterMap (fun session =>
    match session.exercises.find? (fun ex => ex.name = name) with
    | some ex => if ex.sets = [] then none else some ex.sets
    | none => none)

/-- Embeds `_get_working_sets` (lines 166-177): drop sets below 50% of the
session's max weight (warm-ups); a non-positive max keeps everything. -/
def get_working_sets (sets : List SetEntry) : List SetEntry :=
  if sets = [] then []
  else
    let max_weight := listMaxD0 (sets.map SetEntry.weight)
    if max_weight ≤ 0 then sets
    else
      let threshold := max_weight * (5/10)
      sets.filter (fun s => threshold ≤ s.weight)

/-- The session loop of `_check_deload` (lines 185-196): returns false when a
checked session has no working sets or its max exceeds `current_max`;
sessions at or below `current_max` are passed over. -/
def check_deload_loop (current_max : ℚ) : List (List SetEntry) → Bool
  | [] => true
  | session_sets :: rest =>
    let working := get_working_sets session_sets
    if working = [] then false
    else
      let session_max := listMaxD0 (working.map SetEntry.weight)
      if session_max < current_max then check_deload_loop current_max rest
      else if current_max < session_max then false
      else check_deload_loop current_max rest

/-- Embeds `_check_deload` (lines 180-196): with at least two sessions of
history, examine the 2nd and 3rd most recent sessions. -/
def check_deload (exercise_sessions : List (List SetEntry)) (current_max : ℚ) :
    Bool :=
  if exercise_sessions.length < 2 then false
  else check_deload_loop current_max ((exercise_sessions.drop 1).take 2)

/-- Average RPE across working sets, default 7.0 when untracked
(lines 121-123 of `_compute_suggestion`). -/
def avg_rpe_of (working_sets : List SetEntry) : ℚ :=
  let rpe_values := working_sets.filterMap SetEntry.rpe
  if rpe_values = [] then 7 else rpe_values.sum / rpe_values.length

/-- Embeds the per-exercise suggestion dict returned by
`_compute_suggestion`. -/
structure Suggestion where
  suggested_weight_kg : Option ℚ
  last_weight_kg : Option ℚ
  last_reps : Option ℤ
  last_rpe : Option ℚ
  status : String
  reason : String
  deriving Repr, DecidableEq

/-- Embeds `_compute_suggestion` (lines 72-163): classify the exercise as
new / deload / increase / maintain from its session history, with the
`DELOAD_FACTOR = 0.9` suggestion rounded to the nearest 2.5 and the
upper/lower increments 2.5 / 5. -/
def compute_suggestion (exercise_name : String) (sessions : List Session)
    (category : Option String) : Suggestion :=
  let exercise_sessions := extract_exercise_sessions exercise_name sessions
  match exercise_sessions with
  | [] => ⟨none, none, none, none, "new", "No previous data"⟩
  | latest_sets :: _ =>
    let working_sets := get_working_sets latest_sets
    if working_sets = [] then ⟨none, none, none, none, "new", "No working sets found"⟩
    else
      let last_weight := listMaxD0 (working_sets.map SetEntry.weight)
      let last_reps :=
        ((working_sets.find? (fun s => s.weight = last_weight)).map SetEntry.reps).getD 0
      let avg_rpe := avg_rpe_of working_sets
      let is_lower := strLower (category.getD "") = "legs"
      let increment : ℚ := if is_lower then 5 else 5/2
      let needs_deload := check_deload exercise_sessions last_weight
      if needs_deload ∧ 9 ≤ avg_rpe then
        let deloaded := (pyRoundInt (last_weight * (9/10) / (5/2)) : ℚ) * (5/2)
        ⟨some deloaded, some last_weight, some last_reps, some (round1 avg_rpe),
          "deload",
          "-10% deload (" ++ floatStr last_weight ++ "kg → " ++ floatStr deloaded
            ++ "kg)"⟩
      else if avg_rpe ≤ 8 ∧ 1 ≤ last_reps then
        ⟨some (last_weight + increment), some last_weight, some last_reps,
          some (round1 avg_rpe), "increase",
          "+" ++ floatStr increment ++ "kg ("
            ++ (if is_lower then "lower body" else "upper body") ++ " progression)"⟩
      else
        ⟨some last_weight, some last_weight, some last_reps, some (round1 avg_rpe),
          "maintain", "RPE high — maintain current weight"⟩

end ProgressionService

namespace PredictionService

/-- Arithmetic mean of a list (`np.mean`); 0 on the empty list. -/
def listMean (xs : List ℚ) : ℚ := xs.sum / xs.length

/-- Sum of squared deviations from the mean, `Σ (x - mean)²`. -/
def varSum (xs : List ℚ) : ℚ :=
  (xs.map (fun x => (x - listMean xs) ^ 2)).sum

/-- Population variance, the square of `np.std`; in particular
`np.std(xs) > 0` holds exactly when `pvar xs > 0`. -/
def pvar (xs : List ℚ) : ℚ := varSum xs / xs.length

/-- Sum of products of paired deviations, the numerator core of Pearson's r. -/
def covSum (a b : List ℚ) : ℚ :=
  ((a.zip b).map (fun p => (p.1 - listMean a) * (p.2 - listMean b))).sum

/-- One retained correlation dict of `analyze_correlations`
(`src/backend/app/services/prediction_service.py`, lines 392-399).
Pearson's r involves a square root and is irrational in general, so the entry
carries the exact square `corr_sq = r²` together with the covariance `cov`
(whose sign is r's sign); `|r| > 0.3` is the exact test `r² > 0.09`, and a
perfect anti-correlation `r = -1` is `corr_sq = 1 ∧ cov < 0`. The rendered
insight string is determined by the sign and `|r| > 0.7` (`corr_sq > 0.49`)
and is omitted here. -/
structure CorrEntry where
  factor_a : String
  factor_b : String
  corr_sq : ℚ
  cov : ℚ
  data_points : ℕ
  confidence : ℚ
  deriving Repr, DecidableEq

/-- Embeds the per-pair body of `analyze_correlations` (lines 375-399):
truncate both arrays to the shorter length, skip pairs with fewer than 5
overlapping values, skip pairs where either truncated array has zero
standard deviation, and retain the pair only when `|r| > 0.3`. -/
def processPair (type_a type_b : String) (values_a values_b : List ℚ) :
    Option CorrEntry :=
  let min_len := min values_a.length values_b.length
  if min_len < 5 then none
  else
    let arr_a := values_a.take min_len
    let arr_b := values_b.take min_len
    if 0 < pvar arr_a ∧ 0 < pvar arr_b then
      if 9/100 < (covSum arr_a arr_b) ^ 2 / (varSum arr_a * varSum arr_b) then
        some ⟨type_a, type_b,
          (covSum arr_a arr_b) ^ 2 / (varSum arr_a * varSum arr_b),
          covSum arr_a arr_b / min_len, min_len,
          min (95/100) ((min_len : ℚ) / 30)⟩
      else none
    else none

end PredictionService

/-- Python `str.title()`: capitalise the first letter of each alphabetic run,
lowercase the rest. -/
def pyTitleGo : Bool → List Char → List Char
  | _, [] => []
  | prevAlpha, ch :: cs =>
    if ch.isAlpha then
      (if prevAlpha then ch.toLower else ch.toUpper) :: pyTitleGo true cs
    else ch :: pyTitleGo false cs

def pyTitle (s : String) : String := ⟨pyTitleGo false s.data⟩

namespace DashboardService

/-- Embeds the `RecoveryFactor` response model
(`src/backend/app/services/dashboard_service.py`, lines 27-33). -/
structure RecoveryFactor where
  name : String
  value : ℚ
  score : ℚ
  impact : String
  recommendation : Option String := none
  deriving Repr, DecidableEq

/-- Embeds `EnhancedRecoveryResponse` (lines 36-43). -/
structure EnhancedRecoveryResponse where
  score : ℚ
  status : String
  factors : List RecoveryFactor
  primary_recommendation : String
  sleep_deficit_hours : Option ℚ := none
  estimated_full_recovery_hours : Option ℤ := none
  deriving Repr, DecidableEq

/-- Embeds `LiftProgress` (lines 46-52). -/
structure LiftProgress where
  exercise_name : String
  current_value : ℚ
  change_value : ℚ
  change_percent : ℚ
  period : String
  deriving Repr, DecidableEq

/-- Embeds `MuscleBalance` (lines 55-60). -/
structure MuscleBalance where
  category : String
  volume_7d : ℚ
  days_since_trained : Option ℤ
  status : String
  deriving Repr, DecidableEq

/-- One entry of the `recent_prs` list built in `_get_progress_summary`
(lines 260-267). -/
structure RecentPR where
  exercise_name : String
  record_type : String
  value : ℚ
  previous_value : Option ℚ
  achieved_at : String
  deriving Repr, DecidableEq

/-- Embeds `ProgressSummary` (lines 63-69). -/
structure ProgressSummary where
  key_lifts : List LiftProgress
  total_volume_week : ℚ
  volume_trend_pct : ℚ
  recent_prs : List RecentPR
  muscle_balance : List MuscleBalance
  deriving Repr, DecidableEq

/-- Embeds `SmartRecommendation` (lines 72-79). -/
structure SmartRecommendation where
  id : String
  category : String
  priority : ℤ
  title : String
  message : String
  action_route : Option String := none
  deriving Repr, DecidableEq

/-- Embeds `WeeklySummary` (lines 82-89). -/
structure WeeklySummary where
  workouts_completed : ℤ
  workouts_planned : ℤ
  avg_sleep_score : ℚ
  nutrition_adherence_pct : ℚ
  best_day : Option String := none
  highlights : List String
  deriving Repr, DecidableEq

/-- The readiness section value as `get_dashboard` consumes it: both the real
`ReadinessResult` and the fallback dict `{"score": 50,
"recommended_intensity": "moderate"}` supply exactly these two keys. -/
structure ReadinessSection where
  score : ℚ
  recommended_intensity : String
  deriving Repr, DecidableEq

/-- Embeds `DashboardResponse` (lines 92-99). -/
structure DashboardResponse where
  enhanced_recovery : EnhancedRecoveryResponse
  readiness_score : ℚ
  readiness_intensity : String
  progress : ProgressSummary
  recommendations : List SmartRecommendation
  weekly_summary : WeeklySummary
  deriving Repr, DecidableEq

/-- Python `max(xs, key=lambda m: m.days_since_trained or 0)`: the first
element with the strictly greatest key wins. -/
def maxByRestDays (x : MuscleBalance) : List MuscleBalance → MuscleBalance
  | [] => x
  | y :: ys =>
    if (x.days_since_trained.getD 0) < (y.days_since_trained.getD 0) then
      maxByRestDays y ys
    else maxByRestDays x ys

/-- Stable insertion into a priority-sorted list (Python's stable
`list.sort(key=lambda r: r.priority)`). -/
def insertByPriority (r : SmartRecommendation) :
    List SmartRecommendation → List SmartRecommendation
  | [] => [r]
  | x :: xs =>
    if x.priority < r.priority then x :: insertByPriority r xs
    else r :: x :: xs

def sortByPriority : List SmartRecommendation → List SmartRecommendation
  | [] => []
  | x :: xs => insertByPriority x (sortByPriority xs)

/-- Embeds `DashboardService._generate_recommendations` (lines 353-446):
the six threshold rules with a running priority counter, stably sorted by
priority and truncated to 5.  Note that the `readiness` argument is accepted
but never read, exactly as in the source. -/
def generate_recommendations (recovery : EnhancedRecoveryResponse)
    (readiness : ReadinessSection) (progress : ProgressSummary)
    (weekly : WeeklySummary) : List SmartRecommendation :=
  let acc0 : List SmartRecommendation × ℤ := ([], 0)
  let acc1 : List SmartRecommendation × ℤ :=
    match recovery.sleep_deficit_hours with
    | some d =>
      if d ≠ 0 ∧ 1 < d then
        (acc0.1 ++ [⟨"sleep_" ++ toString (acc0.2 + 1), "sleep", acc0.2 + 1,
          "Sleep Recovery",
          "You're " ++ fmtQ1 d
            ++ "h behind on sleep. Consider an earlier bedtime tonight.",
          some "sleep"⟩], acc0.2 + 1)
      else acc0
    | none => acc0
  let acc2 : List SmartRecommendation × ℤ :=
    if recovery.score < 60 then
      (acc1.1 ++ [⟨"recovery_" ++ toString (acc1.2 + 1), "recovery", acc1.2 + 1,
        "Rest Day Recommended",
        "Your recovery is low. A light activity day would help you bounce back faster.",
        none⟩], acc1.2 + 1)
    else acc1
  let recovered_muscles := progress.muscle_balance.filter (fun m => m.status = "recovered")
  let acc3 : List SmartRecommendation × ℤ :=
    match recovered_muscles with
    | [] => acc2
    | m0 :: ms =>
      let best_muscle := maxByRestDays m0 ms
      match best_muscle.days_since_trained with
      | some days =>
        if days ≠ 0 ∧ 3 ≤ days then
          (acc2.1 ++ [⟨"workout_" ++ toString (acc2.2 + 1), "workout", acc2.2 + 1,
            pyTitle best_muscle.category ++ " Day",
            "Your " ++ best_muscle.category ++ " is fully recovered ("
              ++ toString days ++ " days rest)",
            some "workout"⟩], acc2.2 + 1)
        else acc2
      | none => acc2
  let acc4 : List SmartRecommendation × ℤ :=
    if weekly.nutrition_adherence_pct < 60 then
      (acc3.1 ++ [⟨"nutrition_" ++ toString (acc3.2 + 1), "nutrition", acc3.2 + 1,
        "Track Your Meals",
        "Logging meals helps hit your goals. Try logging at least 2 meals today.",
        some "nutrition"⟩], acc3.2 + 1)
    else acc3
  let acc5 : List SmartRecommendation × ℤ :=
    if progress.volume_trend_pct < -20 then
      (acc4.1 ++ [⟨"progress_" ++ toString (acc4.2 + 1), "workout", acc4.2 + 1,
        "Volume Drop",
        "Your training volume is down. Consider adding an extra set to your key lifts.",
        some "workout"⟩], acc4.2 + 1)
    else acc4
  let acc6 : List SmartRecommendation × ℤ :=
    match progress.recent_prs with
    | [] => acc5
    | pr :: _ =>
      (acc5.1 ++ [⟨"pr_" ++ toString (acc5.2 + 1), "workout", 100, "New PR! ðŸŽ‰",
        "You hit a new " ++ pr.record_type ++ " on " ++ pr.exercise_name ++ "!",
        none⟩], acc5.2 + 1)
  (sortByPriority acc6.1).take 5

/-- The neutral `ProgressSummary` substituted when the progress section
raises (lines 140-143). -/
def defaultProgressSummary : ProgressSummary := ⟨[], 0, 0, [], []⟩

/-- Embeds `DashboardService.get_dashboard` (lines 116-165).  The four
section computations perform I/O and may raise; each is therefore an
`Except`-valued input, and each `try/except` block becomes an or-default
match.  The combination itself is a total function: no exception escapes. -/
def get_dashboard (recovery_sec : Except String EnhancedRecoveryResponse)
    (readiness_sec : Except String ReadinessSection)
    (progress_sec : Except String ProgressSummary)
    (weekly_sec : Except String WeeklySummary) : DashboardResponse :=
  let enhanced_recovery :=
    match recovery_sec with
    | .ok v => v
    | .error _ =>
      ⟨50, "unknown", [], "Unable to calculate recovery right now.", none, none⟩
  let readiness :=
    match readiness_sec with
    | .ok v => v
    | .error _ => ⟨50, "moderate"⟩
  let progress :=
    match progress_sec with
    | .ok v => v
    | .error _ => defaultProgressSummary
  let weekly :=
    match weekly_sec with
    | .ok v => v
    | .error _ => ⟨0, 0, 0, 0, none, []⟩
  let recommendations := generate_recommendations enhanced_recovery readiness progress weekly
  ⟨enhanced_recovery, readiness.score, readiness.recommended_intensity, progress,
    recommendations, weekly⟩

end DashboardService

end HealthPulse

namespace HealthPulse

open NutritionCalculator

/-- C2 counterexample: the spec's worked example value is wrong.
`calculate_bmr(70, 175, 30, "male")` returns
`10*70 + 6.25*175 - 5*30 + 5 = 1648.75`, not the `1673.75` the claim states. -/
theorem C2_calculate_bmr_value_counterexample :
    calculate_bmr 70 175 30 "male" ≠ 167375/100 := by
  have hm : strLower "male" = "male" := by decide
  simp only [calculate_bmr, hm]
  norm_num

/-- C2 (amended): `calculate_bmr(70, 175, 30, "male")` equals the male
Mifflin-St Jeor value `10*70 + 6.25*175 - 5*30 + 5`, which is `1648.75`
(the claim's `1673.75` is an arithmetic slip); in general the male formula is
`10*w + 6.25*h - 5*a + 5` and every other gender gets `-161` in place of `+5`. -/
theorem C2_calculate_bmr_mifflin :
    calculate_bmr 70 175 30 "male" = 10 * 70 + (625/100) * 175 - 5 * 30 + 5
    ∧ calculate_bmr 70 175 30 "male" = 164875/100
    ∧ (∀ (w h : ℚ) (a : ℤ),
        calculate_bmr w h a "male" = 10 * w + (625/100) * h - 5 * (a : ℚ) + 5)
    ∧ (∀ (w h : ℚ) (a : ℤ) (g : String), strLower g ≠ "male" →
        calculate_bmr w h a g = 10 * w + (625/100) * h - 5 * (a : ℚ) - 161) := by
  have hm : strLower "male" = "male" := by decide
  refine ⟨?_, ?_, ?_, ?_⟩
  · simp [calculate_bmr, hm]
  · simp [calculate_bmr, hm]
    norm_num
  · intro w h a
    simp [calculate_bmr, hm]
  · intro w h a g hg
    simp only [calculate_bmr, if_neg hg]

/-- Witness for C2 at a concrete non-male gender. -/
theorem C2_calculate_bmr_mifflin_witness :
    strLower "female" ≠ "male"
    ∧ calculate_bmr 60 165 25 "female" =
        10 * 60 + (625/100) * 165 - 5 * (25 : ℤ) - 161 :=
  ⟨by decide, C2_calculate_bmr_mifflin.2.2.2 60 165 25 "female" (by decide)⟩

/-- C6: the per-nutrient adherence score is 50 for `target ≤ 0`, and otherwise
the piecewise-linear decay in `deviation = |1 - consumed/target|` with brackets
at 10%, 20% and 50%; in particular 2500 against a 2000 target scores 55 and
2000 against 2000 scores 100. -/
theorem C6_adherence_score_piecewise :
    (∀ consumed target : ℚ, target ≤ 0 →
      calculate_adherence_score consumed target = 50)
    ∧ (∀ consumed target : ℚ, 0 < target →
        let deviation := |1 - consumed / target|
        calculate_adherence_score consumed target =
          if deviation ≤ 10/100 then 100 - deviation * 100
          else if deviation ≤ 20/100 then 80 - (deviation - 10/100) * 100
          else if deviation ≤ 50/100 then 60 - (deviation - 20/100) * 100
          else max 0 (30 - (deviation - 50/100) * 60))
    ∧ calculate_adherence_score 2500 2000 = 55
    ∧ calculate_adherence_score 2000 2000 = 100 := by
  refine ⟨?_, ?_, by norm_num [calculate_adherence_score, abs],
    by norm_num [calculate_adherence_score, abs]⟩
  · intro consumed target ht
    simp [calculate_adherence_score, ht]
  · intro consumed target ht
    simp [calculate_adherence_score, not_le.mpr ht]

/-- Witness for C6: both hypothesised branches applied at concrete inputs. -/
theorem C6_adherence_score_piecewise_witness :
    calculate_adherence_score 100 0 = 50
    ∧ calculate_adherence_score 2200 2000 =
        (if |1 - (2200 : ℚ) / 2000| ≤ 10/100 then 100 - |1 - (2200 : ℚ) / 2000| * 100
         else if |1 - (2200 : ℚ) / 2000| ≤ 20/100 then
           80 - (|1 - (2200 : ℚ) / 2000| - 10/100) * 100
         else if |1 - (2200 : ℚ) / 2000| ≤ 50/100 then
           60 - (|1 - (2200 : ℚ) / 2000| - 20/100) * 100
         else max 0 (30 - (|1 - (2200 : ℚ) / 2000| - 50/100) * 60)) := by
  exact ⟨C6_adherence_score_piecewise.1 100 0 le_rfl,
    C6_adherence_score_piecewise.2.1 2200 2000 (by norm_num)⟩

/-- C9: for every calorie target and each of the four goal distributions in
`MACRO_DISTRIBUTIONS`, the gram targets from `calculate_macro_grams` satisfy
`4*protein_g + 4*carbs_g + 9*fat_g = calorie_target`, because each
distribution's three percentages sum to 1. -/
theorem C9_macro_grams_energy_identity :
    ∀ (ct : ℚ) (goal : String) (d : MacroDistribution),
      MACRO_DISTRIBUTIONS goal = some d →
      d.protein_pct + d.carbs_pct + d.fat_pct = 1
      ∧ 4 * (calculate_macro_grams ct d).1
        + 4 * (calculate_macro_grams ct d).2.1
        + 9 * (calculate_macro_grams ct d).2.2 = ct := by
  intro ct goal d hd
  simp only [MACRO_DISTRIBUTIONS] at hd
  split_ifs at hd <;> simp only [Option.some.injEq] at hd <;>
    subst hd <;>
    refine ⟨by norm_num, ?_⟩ <;>
    simp only [calculate_macro_grams] <;> ring

/-- Witness for C9 at the "maintain" goal and a 2000 kcal target. -/
theorem C9_macro_grams_energy_identity_witness :
    (⟨25/100, 45/100, 30/100⟩ : MacroDistribution).protein_pct
        + (⟨25/100, 45/100, 30/100⟩ : MacroDistribution).carbs_pct
        + (⟨25/100, 45/100, 30/100⟩ : MacroDistribution).fat_pct = 1
    ∧ 4 * (calculate_macro_grams 2000 ⟨25/100, 45/100, 30/100⟩).1
      + 4 * (calculate_macro_grams 2000 ⟨25/100, 45/100, 30/100⟩).2.1
      + 9 * (calculate_macro_grams 2000 ⟨25/100, 45/100, 30/100⟩).2.2 = 2000 :=
  C9_macro_grams_energy_identity 2000 "maintain" ⟨25/100, 45/100, 30/100⟩
    (by simp [MACRO_DISTRIBUTIONS])

open FitnessPredictor

/-- Each factor block adds its weight to `weights_used` exactly when its guard
holds (sleep-hours block). -/
theorem recoveryStepSleepHours_weights (a : ℚ) (acc : RecoveryAccum) :
    (recoveryStepSleepHours a acc).weights_used =
      acc.weights_used + (if 0 < a then 25/100 else 0) := by
  simp only [recoveryStepSleepHours, RECOVERY_WEIGHTS]
  split_ifs <;> simp

/-- Weight bookkeeping of the sleep-quality block. -/
theorem recoveryStepSleepQuality_weights (a : ℚ) (acc : RecoveryAccum) :
    (recoveryStepSleepQuality a acc).weights_used =
      acc.weights_used + (if 0 < a then 20/100 else 0) := by
  simp only [recoveryStepSleepQuality, RECOVERY_WEIGHTS]
  split_ifs <;> simp

/-- Weight bookkeeping of the HRV block. -/
theorem recoveryStepHrv_weights (a : Option ℚ) (b : ℚ) (acc : RecoveryAccum) :
    (recoveryStepHrv a b acc).weights_used =
      acc.weights_used
        + (match a with | none => 0 | some v => if 0 < v then 20/100 else 0) := by
  rcases a with _ | v <;> simp only [recoveryStepHrv, RECOVERY_WEIGHTS] <;>
    [skip; split_ifs] <;> simp

/-- Weight bookkeeping of the resting-HR block. -/
theorem recoveryStepRestingHr_weights (a : Option ℚ) (b : ℚ) (acc : RecoveryAccum) :
    (recoveryStepRestingHr a b acc).weights_used =
      acc.weights_used
        + (match a with | none => 0 | some v => if 0 < v then 15/100 else 0) := by
  rcases a with _ | v <;> simp only [recoveryStepRestingHr, RECOVERY_WEIGHTS] <;>
    [skip; split_ifs] <;> simp

/-- Weight bookkeeping of the training-load block. -/
theorem recoveryStepTrainingLoad_weights (a : ℚ) (acc : RecoveryAccum) :
    (recoveryStepTrainingLoad a acc).weights_used =
      acc.weights_used + (if 0 ≤ a then 10/100 else 0) := by
  simp only [recoveryStepTrainingLoad, RECOVERY_WEIGHTS]
  split_ifs <;> simp

/-- The stress block adds its 0.10 weight unconditionally. -/
theorem recoveryStepStress_weights (a : ℚ) (acc : RecoveryAccum) :
    (recoveryStepStress a acc).weights_used = acc.weights_used + 10/100 := by
  simp [recoveryStepStress, RECOVERY_WEIGHTS]

/-- Closed form of `weights_used` after the whole factor loop. -/
theorem recovery_weights_used_eq (sh sq : ℚ) (hrv rhr : Option ℚ)
    (tl sl hb rb : ℚ) :
    (calculate_recovery_accum sh sq hrv rhr tl sl hb rb).weights_used =
      (if 0 < sh then 25/100 else 0) + (if 0 < sq then 20/100 else 0)
      + (match hrv with | none => 0 | some v => if 0 < v then 20/100 else 0)
      + (match rhr with | none => 0 | some v => if 0 < v then 15/100 else 0)
      + (if 0 ≤ tl then 10/100 else 0) + 10/100 := by
  simp only [calculate_recovery_accum, recoveryStepStress_weights,
    recoveryStepTrainingLoad_weights, recoveryStepRestingHr_weights,
    recoveryStepHrv_weights, recoveryStepSleepQuality_weights,
    recoveryStepSleepHours_weights]
  show 0 + _ + _ + _ + _ + _ + _ = _
  ring

/-- C5: recovery with `sleep_hours=8, sleep_quality=90, hrv=None,
resting_hr=None, training_load_7d=0, stress_level=2` (default baselines 50/60)
puts exactly the factors sleep_hours, sleep_quality, training_load and stress
into the weighted sum, with contributions `score*weight` at weights
.25/.20/.10/.10 (training_load_7d=0 still counted), and returns
confidence `(.25+.20+.10+.10)/1.0 = 0.65`. -/
theorem C5_recovery_partial_factors :
    (calculate_recovery_accum 8 90 none none 0 2 50 60).factors.map
        FactorEntry.name
      = ["sleep_hours", "sleep_quality", "training_load", "stress"]
    ∧ (calculate_recovery_accum 8 90 none none 0 2 50 60).weights_used
      = 25/100 + 20/100 + 10/100 + 10/100
    ∧ (calculate_recovery_accum 8 90 none none 0 2 50 60).weighted_score
      = 100 * (25/100) + 90 * (20/100) + 70 * (10/100) + 80 * (10/100)
    ∧ (calculate_recovery_score 8 90 none none 0 2 50 60).confidence = 65/100 := by
  refine ⟨?_, ?_, ?_, ?_⟩ <;>
    norm_num [calculate_recovery_accum, calculate_recovery_score,
      recoveryStepSleepHours, recoveryStepSleepQuality, recoveryStepHrv,
      recoveryStepRestingHr, recoveryStepTrainingLoad, recoveryStepStress,
      RECOVERY_WEIGHTS, RECOVERY_WEIGHTS_values_sum, round2, pyRoundInt]

/-- C8: in `calculate_readiness_score` the rest-days factor score is a total
function of `days_since_hard_workout` alone: 40 at 0, 90 on 1..3, 70 above 5,
80 otherwise; in particular 2 days scores 90 and 0 days scores 40. -/
theorem C8_rest_days_scoring :
    (∀ (rs sq : ℚ) (d : ℤ) (el ms : ℚ),
      (calculate_readiness_score rs sq d el ms).factors.rest_days.score =
        if d = 0 then 40
        else if 1 ≤ d ∧ d ≤ 3 then 90
        else if 5 < d then 70
        else 80)
    ∧ (calculate_readiness_score 70 70 2 7 3).factors.rest_days.score = 90
    ∧ (calculate_readiness_score 70 70 0 7 3).factors.rest_days.score = 40 := by
  refine ⟨?_, by norm_num [calculate_readiness_score], by
    norm_num [calculate_readiness_score]⟩
  intro rs sq d el ms
  simp only [calculate_readiness_score]

/-- C10: the stress factor is accumulated unconditionally, so for every input
`weights_used ≥ 0.10`: it is nonzero (the division never divides by zero and
the neutral score-50 fallback branch is unreachable — the returned score is
always the weighted average) and the returned confidence is ≥ 0.1. -/
theorem C10_recovery_stress_unconditional :
    ∀ (sh sq : ℚ) (hrv rhr : Option ℚ) (tl sl hb rb : ℚ),
      1/10 ≤ (calculate_recovery_accum sh sq hrv rhr tl sl hb rb).weights_used
      ∧ (calculate_recovery_accum sh sq hrv rhr tl sl hb rb).weights_used ≠ 0
      ∧ (calculate_recovery_score sh sq hrv rhr tl sl hb rb).score =
          round1 ((calculate_recovery_accum sh sq hrv rhr tl sl hb rb).weighted_score
            / (calculate_recovery_accum sh sq hrv rhr tl sl hb rb).weights_used)
      ∧ 1/10 ≤ (calculate_recovery_score sh sq hrv rhr tl sl hb rb).confidence := by
  intro sh sq hrv rhr tl sl hb rb
  have hkey : 1/10 ≤ (calculate_recovery_accum sh sq hrv rhr tl sl hb rb).weights_used
      ∧ round2 (min 1 ((calculate_recovery_accum sh sq hrv rhr tl sl hb rb).weights_used
            / RECOVERY_WEIGHTS_values_sum))
        = (calculate_recovery_accum sh sq hrv rhr tl sl hb rb).weights_used := by
    rw [recovery_weights_used_eq]
    rcases hrv with _ | v <;> rcases rhr with _ | u <;> dsimp only <;> split_ifs <;>
      norm_num [RECOVERY_WEIGHTS_values_sum, RECOVERY_WEIGHTS, round2, pyRoundInt]
  have hpos : (0 : ℚ)
      < (calculate_recovery_accum sh sq hrv rhr tl sl hb rb).weights_used :=
    lt_of_lt_of_le (by norm_num) hkey.1
  refine ⟨hkey.1, ne_of_gt hpos, ?_, ?_⟩
  · simp only [calculate_recovery_score, if_pos hpos]
  · simp only [calculate_recovery_score]
    rw [hkey.2]
    exact hkey.1

/-- C3: the overall Wellness score of `WellnessCalculator.calculate` is the
weighted sum of the six component scores with fixed weights activity 0.20,
sleep 0.20, recovery 0.15, mental 0.15, nutrition 0.20, training_load 0.10,
which sum to 1.0 (the returned field carries the code's final
round-to-one-decimal formatting). -/
theorem C3_wellness_weighted_sum :
    (∀ a s r m n t : ℚ,
      WellnessCalculator.overall_from_components a s r m n t =
        s * (20/100) + a * (20/100) + r * (15/100) + m * (15/100)
          + n * (20/100) + t * (10/100))
    ∧ WellnessCalculator.WEIGHTS.activity + WellnessCalculator.WEIGHTS.sleep
        + WellnessCalculator.WEIGHTS.recovery + WellnessCalculator.WEIGHTS.mental
        + WellnessCalculator.WEIGHTS.nutrition
        + WellnessCalculator.WEIGHTS.training_load = 1
    ∧ (∀ (g : WellnessCalculator.Goals) (m : WellnessCalculator.DailyMetrics),
        (WellnessCalculator.calculate g m).overall_score =
          round1 (WellnessCalculator.overall_from_components
            (WellnessCalculator.calculate_activity_score g m)
            (WellnessCalculator.calculate_sleep_score m)
            (WellnessCalculator.calculate_recovery_score g m)
            (WellnessCalculator.calculate_mental_score m)
            (WellnessCalculator.calculate_nutrition_score m)
            (WellnessCalculator.calculate_training_load_score m))) := by
  refine ⟨?_, by norm_num [WellnessCalculator.WEIGHTS], ?_⟩
  · intro a s r m n t
    simp only [WellnessCalculator.overall_from_components, WellnessCalculator.WEIGHTS]
    ring
  · intro g m
    simp only [WellnessCalculator.calculate]

open ProgressionService

/-- A left fold of `max` starting from the head is one of the list's
elements. -/
theorem foldl_max_mem_cons (y : ℚ) (ys : List ℚ) : ys.foldl max y ∈ y :: ys := by
  induction ys generalizing y with
  | nil => simp
  | cons z zs ih =>
    simp only [List.foldl_cons, List.mem_cons]
    rcases List.mem_cons.mp (ih (max y z)) with h' | h'
    · rcases max_choice y z with hm | hm
      · exact Or.inl (h'.trans hm)
      · exact Or.inr (Or.inl (h'.trans hm))
    · exact Or.inr (Or.inr h')

/-- A nonempty set list keeps at least its top set after the warm-up filter. -/
theorem get_working_sets_ne_nil {sets : List SetEntry} (h : sets ≠ []) :
    get_working_sets sets ≠ [] := by
  unfold get_working_sets
  rw [if_neg h]
  show (if listMaxD0 (sets.map SetEntry.weight) ≤ 0 then sets
      else sets.filter
        (fun s => decide (listMaxD0 (sets.map SetEntry.weight) * (5/10) ≤ s.weight)))
    ≠ []
  split_ifs with hmax
  · exact h
  · push_neg at hmax
    have hmem : listMaxD0 (sets.map SetEntry.weight) ∈ sets.map SetEntry.weight := by
      rcases sets with _ | ⟨s, ss⟩
      · exact absurd rfl h
      · simpa [listMaxD0] using foldl_max_mem_cons s.weight (ss.map SetEntry.weight)
    rcases List.mem_map.mp hmem with ⟨s, hs, hw⟩
    apply List.ne_nil_of_mem (a := s)
    apply List.mem_filter.mpr
    refine ⟨hs, ?_⟩
    rw [decide_eq_true_eq, hw]
    linarith

/-- Every set list returned by the extraction loop is nonempty. -/
theorem extract_exercise_sessions_ne_nil (name : String) (sessions : List Session) :
    ∀ l ∈ extract_exercise_sessions name sessions, l ≠ [] := by
  intro l hl
  unfold extract_exercise_sessions at hl
  rcases List.mem_filterMap.mp hl with ⟨s, _, hf⟩
  rcases hfind : s.exercises.find? (fun ex => ex.name = name) with _ | ex <;>
    simp only [hfind] at hf
  all_goals
    first
      | exact Option.noConfusion hf
      | (split_ifs at hf with hs
         simp only [Option.some.injEq] at hf
         exact hf ▸ hs)

/-- `_check_deload` on a history of at least three sessions holds exactly when
the 2nd and 3rd most recent sessions' working maxima are both at most
`current_max`. -/
theorem check_deload_cons3 (l0 l1 l2 : List SetEntry) (rest : List (List SetEntry))
    (w : ℚ) (h1 : get_working_sets l1 ≠ []) (h2 : get_working_sets l2 ≠ []) :
    (check_deload (l0 :: l1 :: l2 :: rest) w = true ↔
      (listMaxD0 ((get_working_sets l1).map SetEntry.weight) ≤ w
        ∧ listMaxD0 ((get_working_sets l2).map SetEntry.weight) ≤ w)) := by
  have hlen : ¬ (l0 :: l1 :: l2 :: rest).length < 2 := by
    simp [List.length_cons]
  unfold check_deload
  rw [if_neg hlen]
  show check_deload_loop w [l1, l2] = true ↔ _
  simp only [check_deload_loop, if_neg h1, if_neg h2]
  split_ifs with a b c d e f <;>
    first
      | exact iff_of_true rfl (by constructor <;> linarith)
      | (refine iff_of_false (by simp) ?_
         rintro ⟨hx, hy⟩
         linarith)

/-- C4: with at least three recorded sessions of the exercise, the advisor
returns status "deload" exactly when the 2nd and 3rd most recent sessions'
working-set maxima are each at most the most recent session's working max and
the most recent session's average working-set RPE is at least 9; the suggested
weight is then `round(last_weight*0.9/2.5)*2.5`. -/
theorem C4_progression_deload :
    ∀ (name : String) (sessions : List Session) (category : Option String)
      (l0 l1 l2 : List SetEntry) (rest : List (List SetEntry)),
      extract_exercise_sessions name sessions = l0 :: l1 :: l2 :: rest →
      ((compute_suggestion name sessions category).status = "deload" ↔
        (listMaxD0 ((get_working_sets l1).map SetEntry.weight)
            ≤ listMaxD0 ((get_working_sets l0).map SetEntry.weight)
          ∧ listMaxD0 ((get_working_sets l2).map SetEntry.weight)
            ≤ listMaxD0 ((get_working_sets l0).map SetEntry.weight)
          ∧ 9 ≤ avg_rpe_of (get_working_sets l0)))
      ∧ ((compute_suggestion name sessions category).status = "deload" →
        (compute_suggestion name sessions category).suggested_weight_kg =
          some ((pyRoundInt (listMaxD0 ((get_working_sets l0).map SetEntry.weight)
              * (9/10) / (5/2)) : ℚ) * (5/2))) := by
  intro name sessions category l0 l1 l2 rest hx
  have hmem0 : l0 ∈ extract_exercise_sessions name sessions := by
    rw [hx]; exact List.mem_cons_self _ _
  have hmem1 : l1 ∈ extract_exercise_sessions name sessions := by
    rw [hx]; simp
  have hmem2 : l2 ∈ extract_exercise_sessions name sessions := by
    rw [hx]; simp
  have h0 : get_working_sets l0 ≠ [] :=
    get_working_sets_ne_nil (extract_exercise_sessions_ne_nil name sessions l0 hmem0)
  have h1 : get_working_sets l1 ≠ [] :=
    get_working_sets_ne_nil (extract_exercise_sessions_ne_nil name sessions l1 hmem1)
  have h2 : get_working_sets l2 ≠ [] :=
    get_working_sets_ne_nil (extract_exercise_sessions_ne_nil name sessions l2 hmem2)
  have hdl := check_deload_cons3 l0 l1 l2 rest
    (listMaxD0 ((get_working_sets l0).map SetEntry.weight)) h1 h2
  have hne1 : ("increase" : String) ≠ "deload" := by decide
  have hne2 : ("maintain" : String) ≠ "deload" := by decide
  simp only [compute_suggestion, hx]
  rw [if_neg h0]
  split_ifs with hP hQ hL
  · refine ⟨iff_of_true rfl ?_, fun _ => rfl⟩
    rcases hP with ⟨hc, hr⟩
    rcases hdl.mp hc with ⟨ha, hb⟩
    exact ⟨ha, hb, hr⟩
  all_goals
    refine ⟨iff_of_false (by first | exact hne1 | exact hne2) ?_,
      fun h => absurd h (by first | exact hne1 | exact hne2)⟩
  all_goals
    rintro ⟨ha, hb, hr⟩
    exact hP ⟨hdl.mpr ⟨ha, hb⟩, hr⟩

/-- Witness for C4: three consecutive sessions capped at 100 kg with RPE 9
give status "deload" and a 90.0 kg suggestion. -/
theorem C4_progression_deload_witness :
    extract_exercise_sessions "Bench Press"
        [⟨[⟨"Bench Press", [⟨100, 5, some 9⟩]⟩]⟩,
         ⟨[⟨"Bench Press", [⟨100, 5, some 9⟩]⟩]⟩,
         ⟨[⟨"Bench Press", [⟨100, 5, some 9⟩]⟩]⟩]
      = [[⟨100, 5, some 9⟩], [⟨100, 5, some 9⟩], [⟨100, 5, some 9⟩]]
    ∧ (compute_suggestion "Bench Press"
        [⟨[⟨"Bench Press", [⟨100, 5, some 9⟩]⟩]⟩,
         ⟨[⟨"Bench Press", [⟨100, 5, some 9⟩]⟩]⟩,
         ⟨[⟨"Bench Press", [⟨100, 5, some 9⟩]⟩]⟩] none).status = "deload"
    ∧ (compute_suggestion "Bench Press"
        [⟨[⟨"Bench Press", [⟨100, 5, some 9⟩]⟩]⟩,
         ⟨[⟨"Bench Press", [⟨100, 5, some 9⟩]⟩]⟩,
         ⟨[⟨"Bench Press", [⟨100, 5, some 9⟩]⟩]⟩] none).suggested_weight_kg
      = some 90 := by
  have hx : extract_exercise_sessions "Bench Press"
      [⟨[⟨"Bench Press", [⟨100, 5, some 9⟩]⟩]⟩,
       ⟨[⟨"Bench Press", [⟨100, 5, some 9⟩]⟩]⟩,
       ⟨[⟨"Bench Press", [⟨100, 5, some 9⟩]⟩]⟩]
      = [⟨100, 5, some 9⟩] :: [⟨100, 5, some 9⟩] :: [⟨100, 5, some 9⟩] :: [] := by
    simp [extract_exercise_sessions, List.find?]
  have h := C4_progression_deload "Bench Press"
    [⟨[⟨"Bench Press", [⟨100, 5, some 9⟩]⟩]⟩,
     ⟨[⟨"Bench Press", [⟨100, 5, some 9⟩]⟩]⟩,
     ⟨[⟨"Bench Press", [⟨100, 5, some 9⟩]⟩]⟩] none
    [⟨100, 5, some 9⟩] [⟨100, 5, some 9⟩] [⟨100, 5, some 9⟩] [] hx
  have hwork : get_working_sets [(⟨100, 5, some 9⟩ : SetEntry)] =
      [(⟨100, 5, some 9⟩ : SetEntry)] := by
    norm_num [get_working_sets, listMaxD0, List.filter]
  have hmax : listMaxD0 ((get_working_sets [(⟨100, 5, some 9⟩ : SetEntry)]).map
      SetEntry.weight) = 100 := by
    rw [hwork]
    norm_num [listMaxD0]
  have hrpe : avg_rpe_of (get_working_sets [(⟨100, 5, some 9⟩ : SetEntry)]) = 9 := by
    rw [hwork]
    norm_num [avg_rpe_of, List.filterMap]
  have hstatus := h.1.mpr (by rw [hmax, hrpe]; norm_num)
  refine ⟨hx, hstatus, ?_⟩
  rw [h.2 hstatus, hmax]
  norm_num [pyRoundInt]

open PredictionService

/-- Sum of an affine image of a list. -/
theorem sum_map_affine (c k : ℚ) (a : List ℚ) :
    (a.map fun x => c - k * x).sum = c * a.length - k * a.sum := by
  induction a with
  | nil => simp
  | cons y ys ih =>
    simp only [List.map_cons, List.sum_cons, ih, List.length_cons]
    push_cast
    ring

/-- Mean of an affine image of a nonempty list. -/
theorem listMean_affine (c k : ℚ) (a : List ℚ) (h : a ≠ []) :
    listMean (a.map fun x => c - k * x) = c - k * listMean a := by
  have hn : (a.length : ℚ) ≠ 0 :=
    Nat.cast_ne_zero.mpr (List.length_pos.mpr h).ne'
  simp only [listMean, List.length_map, sum_map_affine]
  field_simp
  try ring

/-- Zipping a list with its own image. -/
theorem zip_self_map (f : ℚ → ℚ) (a : List ℚ) :
    a.zip (a.map f) = a.map (fun x => (x, f x)) := by
  induction a with
  | nil => rfl
  | cons y ys ih => simp [ih]

/-- Covariance sum of a list against a decreasing affine image of itself. -/
theorem covSum_affine (c k : ℚ) (a : List ℚ) (h : a ≠ []) :
    covSum a (a.map fun x => c - k * x) = -k * varSum a := by
  simp only [covSum, zip_self_map, List.map_map, listMean_affine c k a h]
  have hfun : ((fun p : ℚ × ℚ => (p.1 - listMean a) * (p.2 - (c - k * listMean a)))
      ∘ fun x => (x, c - k * x)) = fun x => -k * (x - listMean a) ^ 2 := by
    funext x
    simp only [Function.comp_apply]
    ring
  rw [hfun, List.sum_map_mul_left, varSum]

/-- Deviation-square sum of a decreasing affine image. -/
theorem varSum_affine (c k : ℚ) (a : List ℚ) (h : a ≠ []) :
    varSum (a.map fun x => c - k * x) = k ^ 2 * varSum a := by
  simp only [varSum, List.map_map, listMean_affine c k a h]
  have hfun : ((fun y => (y - (c - k * listMean a)) ^ 2) ∘ fun x => c - k * x)
      = fun x => k ^ 2 * (x - listMean a) ^ 2 := by
    funext x
    simp only [Function.comp_apply]
    ring
  rw [hfun, List.sum_map_mul_left]

/-- C7: a metric pair in which either truncated array has zero variance is
skipped (no insight, and the Pearson denominator is never zero because every
retained pair has both variances positive); two perfectly anti-correlated
arrays of length at least 5 with positive variance are retained with
r = -1 (r² = 1, negative covariance). -/
theorem C7_correlation_guards :
    (∀ (ta tb : String) (a b : List ℚ),
      (pvar (a.take (min a.length b.length)) = 0
        ∨ pvar (b.take (min a.length b.length)) = 0) →
      processPair ta tb a b = none)
    ∧ (∀ (ta tb : String) (a b : List ℚ) (e : CorrEntry),
        processPair ta tb a b = some e →
        0 < pvar (a.take (min a.length b.length))
          ∧ 0 < pvar (b.take (min a.length b.length)))
    ∧ (∀ (ta tb : String) (a : List ℚ) (k c : ℚ),
        5 ≤ a.length → 0 < k → 0 < pvar a →
        ∃ e, processPair ta tb a (a.map fun x => c - k * x) = some e
          ∧ e.corr_sq = 1 ∧ e.cov < 0) := by
  refine ⟨?_, ?_, ?_⟩
  · intro ta tb a b hz
    simp only [processPair]
    split_ifs with h5 hg hr <;>
      first
        | rfl
        | exact absurd (hz.elim (fun h => h ▸ hg.1) (fun h => h ▸ hg.2)) (lt_irrefl 0)
  · intro ta tb a b e he
    simp only [processPair] at he
    split_ifs at he with h5 hg hr <;>
      first
        | exact hg
        | exact Option.noConfusion he
  · intro ta tb a k c h5 hk hv
    have hne : a ≠ [] := by
      intro h
      rw [h] at h5
      simp at h5
    have hlenQ : (0 : ℚ) < a.length := by
      exact_mod_cast List.length_pos.mpr hne
    have hvs : 0 < varSum a := by
      have hv' := hv
      rw [pvar] at hv'
      rcases div_pos_iff.mp hv' with ⟨h1, _⟩ | ⟨_, h2⟩
      · exact h1
      · linarith
    have hcov := covSum_affine c k a hne
    have hvar2 := varSum_affine c k a hne
    have hminlen : min a.length (a.map fun x => c - k * x).length = a.length := by
      simp
    have htb : (a.map fun x => c - k * x).take a.length = a.map fun x => c - k * x :=
      List.take_of_length_le (by simp)
    have hcs : (covSum a (a.map fun x => c - k * x)) ^ 2
        / (varSum a * varSum (a.map fun x => c - k * x)) = 1 := by
      rw [hcov, hvar2,
        div_eq_one_iff_eq (mul_pos hvs (mul_pos (pow_pos hk 2) hvs)).ne']
      ring
    have hpb : 0 < pvar (a.map fun x => c - k * x) := by
      rw [pvar, hvar2, List.length_map]
      positivity
    simp only [processPair, hminlen, List.take_length, htb]
    rw [if_neg (by omega : ¬ a.length < 5), if_pos ⟨hv, hpb⟩,
      if_pos (show 9/100 < (covSum a (a.map fun x => c - k * x)) ^ 2
          / (varSum a * varSum (a.map fun x => c - k * x)) by rw [hcs]; norm_num)]
    refine ⟨_, rfl, hcs, ?_⟩
    rw [hcov]
    exact div_neg_of_neg_of_pos
      (mul_neg_of_neg_of_pos (neg_lt_zero.mpr hk) hvs) hlenQ

/-- Witness for C7: a constant array is skipped against any partner, and
`[1,2,3,4,5]` against its reflection `[5,4,3,2,1]` is retained with r = -1. -/
theorem C7_correlation_guards_witness :
    processPair "sleep" "stress" [1, 1, 1, 1, 1] [1, 2, 3, 4, 5] = none
    ∧ ∃ e, processPair "hrv" "stress" [1, 2, 3, 4, 5]
          (([1, 2, 3, 4, 5] : List ℚ).map fun x => 6 - 1 * x) = some e
        ∧ e.corr_sq = 1 ∧ e.cov < 0 := by
  constructor
  · refine C7_correlation_guards.1 "sleep" "stress" [1, 1, 1, 1, 1] [1, 2, 3, 4, 5]
      (Or.inl ?_)
    norm_num [pvar, varSum, listMean]
  · exact C7_correlation_guards.2.2 "hrv" "stress" [1, 2, 3, 4, 5] 1 6
      (by norm_num) (by norm_num) (by norm_num [pvar, varSum, listMean])

/-- C1: when exactly the progress-summary section raises (and the other three
sections produce values), `get_dashboard` still returns a complete
`DashboardResponse`: `enhanced_recovery` and `weekly_summary` carry their own
computed values, the failed progress section is replaced by the neutral
default `ProgressSummary`, and no exception escapes (`get_dashboard` is a
total function into `DashboardResponse`). -/
theorem C1_dashboard_progress_fault_isolation :
    ∀ (r : DashboardService.EnhancedRecoveryResponse)
      (rd : DashboardService.ReadinessSection) (e : String)
      (w : DashboardService.WeeklySummary),
      (DashboardService.get_dashboard (.ok r) (.ok rd) (.error e)
          (.ok w)).enhanced_recovery = r
      ∧ (DashboardService.get_dashboard (.ok r) (.ok rd) (.error e)
          (.ok w)).weekly_summary = w
      ∧ (DashboardService.get_dashboard (.ok r) (.ok rd) (.error e)
          (.ok w)).progress = DashboardService.defaultProgressSummary
      ∧ (DashboardService.get_dashboard (.ok r) (.ok rd) (.error e)
          (.ok w)).readiness_score = rd.score
      ∧ (DashboardService.get_dashboard (.ok r) (.ok rd) (.error e)
          (.ok w)).readiness_intensity = rd.recommended_intensity
      ∧ (DashboardService.get_dashboard (.ok r) (.ok rd) (.error e)
          (.ok w)).recommendations =
          DashboardService.generate_recommendations r rd
            DashboardService.defaultProgressSummary w := by
  intro r rd e w
  exact ⟨rfl, rfl, rfl, rfl, rfl, rfl⟩

end HealthPulse
